import Mathlib

/- Shallow embedding of the MarsMode core: the AdvancedMode gesture and mode
   state machine from marsmode/modes.py and the resilient delivery loop
   run_with_reconnect from marsmode/core.py.

   Time is modelled by rationals.  Every handler runs at an explicit wall
   clock; a time.sleep call in the source advances the clock, and every
   time.time() call in the source reads the current clock.  A received frame
   carries its arrival time; it is processed at the later of its arrival time
   and the current clock (frames queued during a sleep are processed when the
   handler returns).  Outbound actions (CAN sends, safety mode changes,
   sleeps) are recorded in an effect list. -/

inductive SafetyMode
  | alloutput
  | silent
deriving DecidableEq

inductive Effect
  | sendMsg (address : Nat) (data : List Nat) (bus : Nat)
  | setSafety (mode : SafetyMode)
  | sleep (duration : ℚ)
  | disconnect
  | connectAttempt (ok : Bool)
  | setSpeed (bus : Nat) (kbps : Nat)
deriving DecidableEq

/- Constants from marsmode/core.py. -/

def CAN_ID_STEERING_WHEEL : Nat := 0x3C2
def CAN_ID_TESLA_CLOCK : Nat := 0x528
def CAN_ID_GEAR : Nat := 0x118
def BUS_MAIN : Nat := 0
def BUS_VEHICLE : Nat := 1
def RECONNECT_DELAY : ℚ := 6/5
def MAX_EXCEPTION_COUNT : Nat := 5
def MSG_VOL_DOWN : List Nat := [0x29, 0x55, 0x3F, 0x00, 0x00, 0x00, 0x00, 0x00]
def MSG_VOL_UP : List Nat := [0x29, 0x55, 0x01, 0x00, 0x00, 0x00, 0x00, 0x00]
def MSG_SPEED_DOWN : List Nat := [0x29, 0x55, 0x00, 0x3F, 0x00, 0x00, 0x00, 0x00]
def MSG_SPEED_UP : List Nat := [0x29, 0x55, 0x00, 0x01, 0x00, 0x00, 0x00, 0x00]
def MSG_MEDIA_BACK : List Nat := [0x29, 0x95, 0x00, 0x00, 0x00, 0x00, 0x00, 0x00]
def MSG_PLAY_PAUSE_PFX : List Nat := [0x49, 0x55]
def MSG_LEFT_TILT_PFX : List Nat := [0x29, 0x95]

/- Config from marsmode/core.py with its default values (fractions of
   time-units replace the Python floats: 0.3 = 3/10, 0.5 = 1/2, 0.20 = 1/5,
   0.75 = 3/4). -/

structure Config where
  can_speed_kbps : Nat := 500
  safety_init : SafetyMode := SafetyMode.alloutput
  volume_delay : ℚ := 3/10
  speed_delay : ℚ := 3/10
  startup_signal_count : Nat := 4
  startup_signal_delay : ℚ := 1/2
  double_tap_min : ℚ := 1/5
  double_tap_max : ℚ := 3/4
  tickle_interval : Nat := 5
deriving DecidableEq

def defaultConfig : Config := {}

/- AdvancedMode working state (fields named after modes.py):
   mode_enabled, mode_signal (0 = volume, 1 = speed, 2 = media back),
   boot_init, parked, step_count, last_p_ts, last_d_ts, last_lt (play and
   pause timestamp), last_rt (left tilt timestamp). -/

structure ModeState where
  mode_enabled : Bool
  mode_signal : Nat
  boot_init : Bool
  parked : Bool
  step_count : Nat
  last_p_ts : ℚ
  last_d_ts : ℚ
  last_lt : ℚ
  last_rt : ℚ
deriving DecidableEq

def ModeState.init : ModeState :=
  { mode_enabled := true, mode_signal := 0, boot_init := false, parked := false,
    step_count := 0, last_p_ts := 0, last_d_ts := 0, last_lt := 0, last_rt := 0 }

/- The mode state together with the wall clock. -/

structure Sys where
  clock : ℚ
  mode : ModeState
deriving DecidableEq

def initSys : Sys := { clock := 0, mode := ModeState.init }

/- AdvancedMode._toggle_mode.  Deactivating: send VOL_UP, sleep
   volume_delay + 0.2, send VOL_DOWN, sleep volume_delay + 0.2, set safety
   silent.  Activating: set safety alloutput, send VOL_DOWN, sleep
   volume_delay + 0.2, send VOL_UP. -/

def toggle_mode (cfg : Config) (sys : Sys) : Sys × List Effect :=
  if sys.mode.mode_enabled then
    ({ clock := sys.clock + (cfg.volume_delay + 1/5) + (cfg.volume_delay + 1/5),
       mode := { sys.mode with mode_enabled := false } },
     [Effect.sendMsg CAN_ID_STEERING_WHEEL MSG_VOL_UP BUS_MAIN,
      Effect.sleep (cfg.volume_delay + 1/5),
      Effect.sendMsg CAN_ID_STEERING_WHEEL MSG_VOL_DOWN BUS_MAIN,
      Effect.sleep (cfg.volume_delay + 1/5),
      Effect.setSafety SafetyMode.silent])
  else
    ({ clock := sys.clock + (cfg.volume_delay + 1/5),
       mode := { sys.mode with mode_enabled := true } },
     [Effect.setSafety SafetyMode.alloutput,
      Effect.sendMsg CAN_ID_STEERING_WHEEL MSG_VOL_DOWN BUS_MAIN,
      Effect.sleep (cfg.volume_delay + 1/5),
      Effect.sendMsg CAN_ID_STEERING_WHEEL MSG_VOL_UP BUS_MAIN])

/- AdvancedMode._handle_play_pause.  step_count is reset first, then the
   elapsed time since last_lt is checked against the double tap window; on a
   double tap _toggle_mode runs and last_lt is set to the time after its
   sleeps, otherwise last_lt is set to the current time. -/

def handle_play_pause (cfg : Config) (sys : Sys) : Sys × List Effect :=
  let s0 := { sys.mode with step_count := 0 }
  let delta_lt := sys.clock - s0.last_lt
  if cfg.double_tap_min < delta_lt ∧ delta_lt < cfg.double_tap_max then
    let r := toggle_mode cfg { sys with mode := s0 }
    ({ r.1 with mode := { r.1.mode with last_lt := r.1.clock } }, r.2)
  else
    ({ sys with mode := { s0 with last_lt := sys.clock } }, [])

/- The confirmation pair sent by _handle_left_tilt: VOL_DOWN, sleep
   volume_delay + 0.2, VOL_UP, sleep volume_delay + 0.2. -/

def confirmPair (cfg : Config) : List Effect :=
  [Effect.sendMsg CAN_ID_STEERING_WHEEL MSG_VOL_DOWN BUS_MAIN,
   Effect.sleep (cfg.volume_delay + 1/5),
   Effect.sendMsg CAN_ID_STEERING_WHEEL MSG_VOL_UP BUS_MAIN,
   Effect.sleep (cfg.volume_delay + 1/5)]

/- AdvancedMode._handle_left_tilt.  On a double tap last_rt is set to 0,
   mode_signal advances cyclically, safety is temporarily forced to
   alloutput when disabled, the confirmation pair is sent, silent is
   restored when disabled, and finally last_rt is set to the current time
   (overwriting the 0). -/

def handle_left_tilt (cfg : Config) (sys : Sys) : Sys × List Effect :=
  let s0 := { sys.mode with step_count := 0 }
  let delta_rt := sys.clock - s0.last_rt
  if cfg.double_tap_min < delta_rt ∧ delta_rt < cfg.double_tap_max then
    let s1 := { s0 with last_rt := 0, mode_signal := (s0.mode_signal + 1) % 3 }
    let c1 := sys.clock + (cfg.volume_delay + 1/5) + (cfg.volume_delay + 1/5)
    ({ clock := c1, mode := { s1 with last_rt := c1 } },
     (if s1.mode_enabled then [] else [Effect.setSafety SafetyMode.alloutput])
       ++ confirmPair cfg
       ++ (if s1.mode_enabled then [] else [Effect.setSafety SafetyMode.silent]))
  else
    ({ sys with mode := { s0 with last_rt := sys.clock } }, [])

/- AdvancedMode._handle_steering_wheel: dispatch on the first two payload
   bytes. -/

def handle_steering_wheel (cfg : Config) (sys : Sys) (ev_data : List Nat) :
    Sys × List Effect :=
  if 2 ≤ ev_data.length ∧ ev_data.take 2 = MSG_PLAY_PAUSE_PFX then
    handle_play_pause cfg sys
  else if 2 ≤ ev_data.length ∧ ev_data.take 2 = MSG_LEFT_TILT_PFX then
    handle_left_tilt cfg sys
  else
    (sys, [])

/- AdvancedMode._handle_gear: payloads shorter than 3 are ignored; byte 2
   at or below 50 or at or above 240 is park evidence, anything else is
   drive evidence; parked flips only on a strict timestamp comparison. -/

def handle_gear (cfg : Config) (sys : Sys) (ev_data : List Nat) :
    Sys × List Effect :=
  if ev_data.length < 3 then (sys, [])
  else
    let gear_value : Nat := ev_data.getD 2 0
    let s1 : ModeState :=
      if gear_value ≤ 50 ∨ 240 ≤ gear_value then
        { sys.mode with last_p_ts := sys.clock }
      else
        { sys.mode with last_d_ts := sys.clock }
    if s1.parked = false ∧ s1.last_d_ts < s1.last_p_ts then
      ({ sys with mode := { s1 with parked := true } },
       if s1.mode_enabled then [Effect.setSafety SafetyMode.silent] else [])
    else if s1.parked = true ∧ s1.last_p_ts < s1.last_d_ts then
      ({ sys with mode := { s1 with parked := false } },
       if s1.mode_enabled then [Effect.setSafety SafetyMode.alloutput] else [])
    else
      ({ sys with mode := s1 }, [])

/- The effects of the startup flag loop in _do_startup_sequence: n pairs of
   VOL_DOWN, sleep startup_signal_delay, VOL_UP, sleep startup_signal_delay. -/

def startupPairs (cfg : Config) : Nat → List Effect
  | 0 => []
  | n + 1 =>
    [Effect.sendMsg CAN_ID_STEERING_WHEEL MSG_VOL_DOWN BUS_MAIN,
     Effect.sleep cfg.startup_signal_delay,
     Effect.sendMsg CAN_ID_STEERING_WHEEL MSG_VOL_UP BUS_MAIN,
     Effect.sleep cfg.startup_signal_delay] ++ startupPairs cfg n

/- The full effect list of _do_startup_sequence: safety alloutput
   unconditionally, startup_signal_count / 2 signal pairs, then silent when
   the mode is disabled. -/

def startupEffects (cfg : Config) (enabled : Bool) : List Effect :=
  [Effect.setSafety SafetyMode.alloutput]
    ++ startupPairs cfg (cfg.startup_signal_count / 2)
    ++ (if enabled then [] else [Effect.setSafety SafetyMode.silent])

/- AdvancedMode._do_startup_sequence: sets boot_init, emits startupEffects,
   and spends 2 * startup_signal_delay per pair of wall clock time. -/

def do_startup_sequence (cfg : Config) (sys : Sys) : Sys × List Effect :=
  ({ clock := sys.clock
       + (cfg.startup_signal_count / 2 : Nat) * (2 * cfg.startup_signal_delay),
     mode := { sys.mode with boot_init := true } },
   startupEffects cfg sys.mode.mode_enabled)

/- The effect list of _send_tickle_signal: a random jitter sleep (the draw j
   from uniform(0, 2) is an input of the model), then the pair or single
   frame selected by mode_signal. -/

def tickleEffects (cfg : Config) (j : ℚ) (sig : Nat) : List Effect :=
  if sig = 0 then
    [Effect.sleep j,
     Effect.sendMsg CAN_ID_STEERING_WHEEL MSG_VOL_DOWN BUS_MAIN,
     Effect.sleep cfg.volume_delay,
     Effect.sendMsg CAN_ID_STEERING_WHEEL MSG_VOL_UP BUS_MAIN]
  else if sig = 1 then
    [Effect.sleep j,
     Effect.sendMsg CAN_ID_STEERING_WHEEL MSG_SPEED_DOWN BUS_MAIN,
     Effect.sleep cfg.speed_delay,
     Effect.sendMsg CAN_ID_STEERING_WHEEL MSG_SPEED_UP BUS_MAIN]
  else
    [Effect.sleep j,
     Effect.sendMsg CAN_ID_STEERING_WHEEL MSG_MEDIA_BACK BUS_MAIN]

/- AdvancedMode._send_tickle_signal with its wall clock cost. -/

def send_tickle_signal (cfg : Config) (j : ℚ) (sys : Sys) : Sys × List Effect :=
  ({ sys with clock := sys.clock + j
       + (if sys.mode.mode_signal = 0 then cfg.volume_delay
          else if sys.mode.mode_signal = 1 then cfg.speed_delay
          else 0) },
   tickleEffects cfg j sys.mode.mode_signal)

/- AdvancedMode._handle_clock_tick: run the startup sequence on the first
   tick, then (only while enabled) increment step_count and fire the tickle
   when it reaches tickle_interval. -/

def handle_clock_tick (cfg : Config) (j : ℚ) (sys : Sys) : Sys × List Effect :=
  let r0 :=
    if sys.mode.boot_init = false then do_startup_sequence cfg sys
    else (sys, ([] : List Effect))
  let sys1 := r0.1
  if sys1.mode.mode_enabled then
    let s1 := { sys1.mode with step_count := sys1.mode.step_count + 1 }
    if cfg.tickle_interval ≤ s1.step_count then
      let r1 := send_tickle_signal cfg j { sys1 with mode := { s1 with step_count := 0 } }
      (r1.1, r0.2 ++ r1.2)
    else
      ({ sys1 with mode := s1 }, r0.2)
  else
    (sys1, r0.2)

/- AdvancedMode._process_message: dispatch by CAN identifier. -/

def process_message (cfg : Config) (j : ℚ) (sys : Sys) (ev_id : Nat)
    (ev_data : List Nat) : Sys × List Effect :=
  if ev_id = CAN_ID_TESLA_CLOCK then handle_clock_tick cfg j sys
  else if ev_id = CAN_ID_STEERING_WHEEL then handle_steering_wheel cfg sys ev_data
  else if ev_id = CAN_ID_GEAR then handle_gear cfg sys ev_data
  else (sys, [])

/- A received frame: identifier, payload, source bus, arrival time, and the
   jitter draw that _send_tickle_signal would use if this frame fires a
   tickle. -/

structure Frame where
  ev_id : Nat
  ev_data : List Nat
  ev_bus : Nat
  arrival : ℚ
  jitter : ℚ
deriving DecidableEq

/- One iteration step of AdvancedMode.run for a single received frame:
   advance the clock to the arrival time if it is later, then process the
   frame only when it came from BUS_MAIN. -/

def process_frame (cfg : Config) (sys : Sys) (f : Frame) : Sys × List Effect :=
  let sys1 := { sys with clock := max sys.clock f.arrival }
  if f.ev_bus = BUS_MAIN then process_message cfg f.jitter sys1 f.ev_id f.ev_data
  else (sys1, [])

def process_frames (cfg : Config) (sys : Sys) : List Frame → Sys × List Effect
  | [] => (sys, [])
  | f :: rest =>
    let r := process_frame cfg sys f
    let r2 := process_frames cfg r.1 rest
    (r2.1, r.2 ++ r2.2)

/- Safety mode tracking: fold the setSafety effects of a trace over the
   current interface safety mode. -/

def applyEffect (m : SafetyMode) (e : Effect) : SafetyMode :=
  match e with
  | Effect.setSafety m2 => m2
  | _ => m

def applyEffects (m : SafetyMode) (l : List Effect) : SafetyMode :=
  l.foldl applyEffect m

/- Observation helpers for the double tap and tickle claims. -/

def countToggles (cfg : Config) (sys : Sys) : List Frame → Nat
  | [] => 0
  | f :: rest =>
    let r := process_frame cfg sys f
    (if r.1.mode.mode_enabled = sys.mode.mode_enabled then 0 else 1)
      + countToggles cfg r.1 rest

def countCycles (cfg : Config) (sys : Sys) : List Frame → Nat
  | [] => 0
  | f :: rest =>
    let r := process_frame cfg sys f
    (if r.1.mode.mode_signal = sys.mode.mode_signal then 0 else 1)
      + countCycles cfg r.1 rest

def countFires (cfg : Config) (sys : Sys) : List Frame → Nat
  | [] => 0
  | f :: rest =>
    let r := process_frame cfg sys f
    (if r.2.isEmpty then 0 else 1) + countFires cfg r.1 rest

def isClockFrame (f : Frame) : Bool :=
  f.ev_bus == BUS_MAIN && f.ev_id == CAN_ID_TESLA_CLOCK

def countStartups (cfg : Config) (sys : Sys) : List Frame → Nat
  | [] => 0
  | f :: rest =>
    (if isClockFrame f && !sys.mode.boot_init then 1 else 0)
      + countStartups cfg (process_frame cfg sys f).1 rest

/- Concrete frames for counterexamples and witnesses. -/

def ppFrame (t : ℚ) : Frame :=
  { ev_id := CAN_ID_STEERING_WHEEL, ev_data := MSG_PLAY_PAUSE_PFX ++ [0, 0, 0, 0, 0, 0],
    ev_bus := BUS_MAIN, arrival := t, jitter := 0 }

def ltFrame (t : ℚ) : Frame :=
  { ev_id := CAN_ID_STEERING_WHEEL, ev_data := MSG_LEFT_TILT_PFX ++ [0, 0, 0, 0, 0, 0],
    ev_bus := BUS_MAIN, arrival := t, jitter := 0 }

def gearParkFrame (t : ℚ) : Frame :=
  { ev_id := CAN_ID_GEAR, ev_data := [0, 0, 0, 0, 0, 0, 0, 0],
    ev_bus := BUS_MAIN, arrival := t, jitter := 0 }

def clockFrame (t : ℚ) : Frame :=
  { ev_id := CAN_ID_TESLA_CLOCK, ev_data := [0, 0, 0, 0, 0, 0, 0, 0],
    ev_bus := BUS_MAIN, arrival := t, jitter := 0 }

/- The safety mode invariant the code actually maintains: alloutput implies
   enabled, and while not parked the safety mode matches enabled exactly. -/

def SafetyInv (s : ModeState) (m : SafetyMode) : Prop :=
  (m = SafetyMode.alloutput → s.mode_enabled = true)
    ∧ (s.parked = false → (m = SafetyMode.alloutput ↔ s.mode_enabled = true))

/- The invariant as the specification words it: while parked the safety mode
   is silent regardless of enabled, otherwise it matches enabled. -/

def claimedSafetyInv (s : ModeState) (m : SafetyMode) : Prop :=
  if s.parked then m = SafetyMode.silent
  else (m = SafetyMode.alloutput ↔ s.mode_enabled = true)

/- ====================  Delivery loop (core.py)  ==================== -/

/- The outcome of one loop_func call: it returned a Bool, or it raised. -/

inductive StepResult
  | ok (cont : Bool)
  | err
deriving DecidableEq

/- The oracle input for one iteration of run_with_reconnect: the shutdown
   flag observed at the top of the loop, the step outcome, and whether a
   reconnect would succeed if attempted. -/

structure LoopIter where
  shutdown : Bool
  step : StepResult
  reconnectOk : Bool
deriving DecidableEq

structure LoopState where
  exception_count : Nat
deriving DecidableEq

inductive ExitReason
  | connectFailed
  | shutdown
  | graceful
  | reconnectFailed
  | fuelExhausted
deriving DecidableEq

/- PandaController.connect: on success it sets both CAN bus speeds, the
   configured initial safety mode, and resets the exception counter. -/

def connectEffects (cfg : Config) (ok : Bool) : List Effect :=
  if ok then
    [Effect.connectAttempt true,
     Effect.setSpeed BUS_MAIN cfg.can_speed_kbps,
     Effect.setSpeed BUS_VEHICLE cfg.can_speed_kbps,
     Effect.setSafety cfg.safety_init]
  else
    [Effect.connectAttempt false]

/- PandaController.disconnect: set safety silent, drop the connection. -/

def disconnectEffects : List Effect :=
  [Effect.setSafety SafetyMode.silent, Effect.disconnect]

/- PandaController.reconnect: disconnect, fixed backoff, connect. -/

def reconnectEffects (cfg : Config) (ok : Bool) : List Effect :=
  disconnectEffects ++ [Effect.sleep RECONNECT_DELAY] ++ connectEffects cfg ok

/- One iteration of the while loop in run_with_reconnect.  Returns the new
   counter state, the effects, and the exit reason if the loop ends here. -/

def loopIter (cfg : Config) (reconnect_on_error : Bool) (st : LoopState)
    (it : LoopIter) : LoopState × List Effect × Option ExitReason :=
  if it.shutdown then (st, [], some ExitReason.shutdown)
  else
    match it.step with
    | StepResult.ok true => ({ exception_count := 0 }, [], none)
    | StepResult.ok false => (st, [], some ExitReason.graceful)
    | StepResult.err =>
      let st1 : LoopState := { exception_count := st.exception_count + 1 }
      if reconnect_on_error ∧ MAX_EXCEPTION_COUNT < st1.exception_count then
        if it.reconnectOk then
          ({ exception_count := 0 }, reconnectEffects cfg true, none)
        else
          (st1, reconnectEffects cfg false, some ExitReason.reconnectFailed)
      else
        (st1, [Effect.sleep RECONNECT_DELAY], none)

def loopRun (cfg : Config) (reconnect_on_error : Bool) (st : LoopState) :
    List LoopIter → LoopState × List Effect × ExitReason
  | [] => (st, [], ExitReason.fuelExhausted)
  | it :: rest =>
    let r := loopIter cfg reconnect_on_error st it
    match r.2.2 with
    | some reason => (r.1, r.2.1, reason)
    | none =>
      let r2 := loopRun cfg reconnect_on_error r.1 rest
      (r2.1, r.2.1 ++ r2.2.1, r2.2.2)

/- PandaController.run_with_reconnect over an oracle list.  Returns none
   when the oracle list runs out before the loop exits (the Python loop
   would still be running); otherwise the full effect trace, including the
   cleanup of the finally block, and the exit reason. -/

def run_with_reconnect (cfg : Config) (reconnect_on_error : Bool)
    (connectOk : Bool) (iters : List LoopIter) :
    Option (List Effect × ExitReason) :=
  if connectOk then
    let r := loopRun cfg reconnect_on_error { exception_count := 0 } iters
    match r.2.2 with
    | ExitReason.fuelExhausted => none
    | reason => some (connectEffects cfg true ++ r.2.1 ++ disconnectEffects, reason)
  else
    some (connectEffects cfg false, ExitReason.connectFailed)

/- States used by concrete witnesses: the initial state after the startup
   sequence has run, enabled and disabled. -/

def bootSys : Sys :=
  { clock := 0, mode := { ModeState.init with boot_init := true } }

def bootSysDisabled : Sys :=
  { clock := 0, mode := { ModeState.init with boot_init := true, mode_enabled := false } }

/- Intermediate states of the three tap traces used by the double tap
   claims (with the default config, volume_delay + 0.2 = 1/2). -/
def ppSingleState (t : ℚ) : Sys :=
  { clock := t, mode := { ModeState.init with step_count := 0, last_lt := t } }

def ppToggledState (t : ℚ) : Sys :=
  { clock := t + 3/10 + (3/10 + 1/5) + (3/10 + 1/5)
    mode := { ModeState.init with
      mode_enabled := false
      step_count := 0
      last_lt := t + 3/10 + (3/10 + 1/5) + (3/10 + 1/5) } }

def ltSingleState (t : ℚ) : Sys :=
  { clock := t, mode := { ModeState.init with step_count := 0, last_rt := t } }

def ltCycledState (t : ℚ) : Sys :=
  { clock := t + 3/10 + (3/10 + 1/5) + (3/10 + 1/5)
    mode := { ModeState.init with
      mode_signal := 1
      step_count := 0
      last_rt := t + 3/10 + (3/10 + 1/5) + (3/10 + 1/5) } }

/- ====================  General lemmas  ==================== -/

theorem applyEffects_append (m : SafetyMode) (a b : List Effect) :
    applyEffects m (a ++ b) = applyEffects (applyEffects m a) b := by
  simp [applyEffects, List.foldl_append]

theorem applyEffects_nil (m : SafetyMode) : applyEffects m [] = m := rfl

theorem applyEffects_cons (m : SafetyMode) (e : Effect) (l : List Effect) :
    applyEffects m (e :: l) = applyEffects (applyEffect m e) l := rfl

theorem applyEffects_startupPairs (cfg : Config) (m : SafetyMode) (n : Nat) :
    applyEffects m (startupPairs cfg n) = m := by
  induction n with
  | zero => simp [startupPairs, applyEffects]
  | succ k ih =>
    rw [startupPairs, applyEffects_append]
    exact ih

theorem applyEffects_confirmPair (cfg : Config) (m : SafetyMode) :
    applyEffects m (confirmPair cfg) = m := by
  simp [confirmPair, applyEffects, applyEffect]

theorem applyEffects_tickle (cfg : Config) (m : SafetyMode) (j : ℚ) (sig : Nat) :
    applyEffects m (tickleEffects cfg j sig) = m := by
  unfold tickleEffects
  split_ifs <;> simp [applyEffects, applyEffect]

/- ====================  C10  ==================== -/

/-- C10: a frame whose source bus is not BUS_MAIN, or whose identifier is
none of the clock, steering wheel, or gear identifiers, leaves every
ModeState field unchanged and produces no effect (only the wall clock is
advanced to the arrival time). -/
theorem foreign_frame_noop (cfg : Config) (sys : Sys) (f : Frame)
    (h : f.ev_bus ≠ BUS_MAIN
      ∨ (f.ev_id ≠ CAN_ID_TESLA_CLOCK ∧ f.ev_id ≠ CAN_ID_STEERING_WHEEL
          ∧ f.ev_id ≠ CAN_ID_GEAR)) :
    process_frame cfg sys f = ({ sys with clock := max sys.clock f.arrival }, []) := by
  rcases h with h | ⟨h1, h2, h3⟩
  · simp [process_frame, h]
  · by_cases hb : f.ev_bus = BUS_MAIN
    · simp [process_frame, hb, process_message, h1, h2, h3]
    · simp [process_frame, hb]

theorem foreign_frame_noop_w :
    (((1 : Nat) ≠ BUS_MAIN
        ∨ ((0x3C3 : Nat) ≠ CAN_ID_TESLA_CLOCK ∧ (0x3C3 : Nat) ≠ CAN_ID_STEERING_WHEEL
            ∧ (0x3C3 : Nat) ≠ CAN_ID_GEAR)))
    ∧ process_frame defaultConfig initSys
        { ev_id := 0x3C3, ev_data := [], ev_bus := 1, arrival := 2, jitter := 0 }
      = ({ initSys with clock := max initSys.clock 2 }, []) :=
  ⟨Or.inl (by decide),
   foreign_frame_noop defaultConfig initSys
     { ev_id := 0x3C3, ev_data := [], ev_bus := 1, arrival := 2, jitter := 0 }
     (Or.inl (by decide))⟩

/- ====================  C9  ==================== -/

/-- C9: a steering or control panel frame with a payload shorter than 2
bytes, and a gear frame with a payload shorter than 3 bytes, are complete
no-ops: no ModeState field changes and no frame or safety change is
emitted (the payload indexing in the classification routine is total under
the length guards). -/
theorem short_payload_noop (cfg : Config) (sys : Sys) (fS fG : Frame)
    (hSb : fS.ev_bus = BUS_MAIN) (hSi : fS.ev_id = CAN_ID_STEERING_WHEEL)
    (hSl : fS.ev_data.length < 2)
    (hGb : fG.ev_bus = BUS_MAIN) (hGi : fG.ev_id = CAN_ID_GEAR)
    (hGl : fG.ev_data.length < 3) :
    process_frame cfg sys fS = ({ sys with clock := max sys.clock fS.arrival }, [])
    ∧ process_frame cfg sys fG = ({ sys with clock := max sys.clock fG.arrival }, []) := by
  constructor
  · have h2 : ¬ (2 ≤ fS.ev_data.length) := by omega
    simp [process_frame, hSb, process_message, hSi, handle_steering_wheel, h2,
      CAN_ID_STEERING_WHEEL, CAN_ID_TESLA_CLOCK]
  · simp [process_frame, hGb, process_message, hGi, handle_gear, hGl,
    CAN_ID_GEAR, CAN_ID_TESLA_CLOCK, CAN_ID_STEERING_WHEEL]

theorem short_payload_noop_w :
    ((0 : Nat) = BUS_MAIN ∧ (0x3C2 : Nat) = CAN_ID_STEERING_WHEEL
      ∧ ([(0x49 : Nat)].length < 2)
      ∧ (0 : Nat) = BUS_MAIN ∧ (0x118 : Nat) = CAN_ID_GEAR
      ∧ ([(0 : Nat), 0].length < 3))
    ∧ (process_frame defaultConfig initSys
        { ev_id := 0x3C2, ev_data := [0x49], ev_bus := 0, arrival := 1, jitter := 0 }
        = ({ initSys with clock := max initSys.clock 1 }, [])
      ∧ process_frame defaultConfig initSys
          { ev_id := 0x118, ev_data := [0, 0], ev_bus := 0, arrival := 1, jitter := 0 }
        = ({ initSys with clock := max initSys.clock 1 }, [])) :=
  ⟨⟨by decide, by decide, by decide, by decide, by decide, by decide⟩,
   short_payload_noop defaultConfig initSys
     { ev_id := 0x3C2, ev_data := [0x49], ev_bus := 0, arrival := 1, jitter := 0 }
     { ev_id := 0x118, ev_data := [0, 0], ev_bus := 0, arrival := 1, jitter := 0 }
     (by decide) (by decide) (by decide) (by decide) (by decide) (by decide)⟩

/- ====================  C4  ==================== -/

/-- C4: for every gear frame with payload length at least 3, byte index 2 at
or below 50 or at or above 240 updates last_p_ts to the current time and any
other value updates last_d_ts; parked flips to true only when it was false
and the park timestamp strictly exceeds the drive timestamp, flips to false
only in the strictly opposite case, never flips on ties; a flip to parked
while enabled sets safety silent and a flip to non-parked while enabled sets
safety alloutput. -/
theorem gear_park_detection (cfg : Config) (sys : Sys) (f : Frame)
    (hb : f.ev_bus = BUS_MAIN) (hi : f.ev_id = CAN_ID_GEAR)
    (hl : 3 ≤ f.ev_data.length) :
    ((f.ev_data.getD 2 0 ≤ 50 ∨ 240 ≤ f.ev_data.getD 2 0) →
        (process_frame cfg sys f).1.mode.last_p_ts = max sys.clock f.arrival
        ∧ (process_frame cfg sys f).1.mode.last_d_ts = sys.mode.last_d_ts)
    ∧ (¬ (f.ev_data.getD 2 0 ≤ 50 ∨ 240 ≤ f.ev_data.getD 2 0) →
        (process_frame cfg sys f).1.mode.last_d_ts = max sys.clock f.arrival
        ∧ (process_frame cfg sys f).1.mode.last_p_ts = sys.mode.last_p_ts)
    ∧ ((process_frame cfg sys f).1.mode.parked = true ∧ sys.mode.parked = false
        ↔ sys.mode.parked = false
          ∧ (process_frame cfg sys f).1.mode.last_d_ts
              < (process_frame cfg sys f).1.mode.last_p_ts)
    ∧ ((process_frame cfg sys f).1.mode.parked = false ∧ sys.mode.parked = true
        ↔ sys.mode.parked = true
          ∧ (process_frame cfg sys f).1.mode.last_p_ts
              < (process_frame cfg sys f).1.mode.last_d_ts)
    ∧ ((process_frame cfg sys f).1.mode.last_p_ts
          = (process_frame cfg sys f).1.mode.last_d_ts
        → (process_frame cfg sys f).1.mode.parked = sys.mode.parked)
    ∧ (sys.mode.parked = false ∧ sys.mode.mode_enabled = true
        ∧ (process_frame cfg sys f).1.mode.parked = true
        → (process_frame cfg sys f).2 = [Effect.setSafety SafetyMode.silent])
    ∧ (sys.mode.parked = true ∧ sys.mode.mode_enabled = true
        ∧ (process_frame cfg sys f).1.mode.parked = false
        → (process_frame cfg sys f).2 = [Effect.setSafety SafetyMode.alloutput]) := by
  have h3 : ¬ (f.ev_data.length < 3) := by omega
  have hr : process_frame cfg sys f
      = handle_gear cfg { sys with clock := max sys.clock f.arrival } f.ev_data := by
    simp [process_frame, hb, process_message, hi, CAN_ID_GEAR, CAN_ID_TESLA_CLOCK,
      CAN_ID_STEERING_WHEEL]
  rw [hr]
  set M := max sys.clock f.arrival with hM
  by_cases hP : f.ev_data.getD 2 0 ≤ 50 ∨ 240 ≤ f.ev_data.getD 2 0
  · simp only [handle_gear, h3, hP, if_true, if_false, ite_true, ite_false]
    split_ifs with h1 h2 <;>
      refine ⟨fun hg => ?_, fun hg => ?_, ?_, ?_, fun hg => ?_, fun hg => ?_, fun hg => ?_⟩ <;>
      simp_all <;>
      try (first
        | tauto
        | linarith
        | omega
        | (obtain ⟨hga, hgb, hgc⟩ := hg
           rw [hga] at hgc
           cases hgc))
  · simp only [handle_gear, h3, hP, if_true, if_false, ite_true, ite_false]
    split_ifs with h1 h2 <;>
      refine ⟨fun hg => ?_, fun hg => ?_, ?_, ?_, fun hg => ?_, fun hg => ?_, fun hg => ?_⟩ <;>
      simp_all <;>
      try (first
        | tauto
        | linarith
        | omega
        | (obtain ⟨hga, hgb, hgc⟩ := hg
           rw [hga] at hgc
           cases hgc))

theorem gear_park_detection_w :
    ((gearParkFrame 1).ev_bus = BUS_MAIN ∧ (gearParkFrame 1).ev_id = CAN_ID_GEAR
      ∧ 3 ≤ (gearParkFrame 1).ev_data.length)
    ∧ ((((gearParkFrame 1).ev_data.getD 2 0 ≤ 50 ∨ 240 ≤ (gearParkFrame 1).ev_data.getD 2 0) →
        (process_frame defaultConfig initSys (gearParkFrame 1)).1.mode.last_p_ts
            = max initSys.clock (gearParkFrame 1).arrival
        ∧ (process_frame defaultConfig initSys (gearParkFrame 1)).1.mode.last_d_ts
            = initSys.mode.last_d_ts)
    ∧ (¬ ((gearParkFrame 1).ev_data.getD 2 0 ≤ 50 ∨ 240 ≤ (gearParkFrame 1).ev_data.getD 2 0) →
        (process_frame defaultConfig initSys (gearParkFrame 1)).1.mode.last_d_ts
            = max initSys.clock (gearParkFrame 1).arrival
        ∧ (process_frame defaultConfig initSys (gearParkFrame 1)).1.mode.last_p_ts
            = initSys.mode.last_p_ts)
    ∧ ((process_frame defaultConfig initSys (gearParkFrame 1)).1.mode.parked = true
          ∧ initSys.mode.parked = false
        ↔ initSys.mode.parked = false
          ∧ (process_frame defaultConfig initSys (gearParkFrame 1)).1.mode.last_d_ts
              < (process_frame defaultConfig initSys (gearParkFrame 1)).1.mode.last_p_ts)
    ∧ ((process_frame defaultConfig initSys (gearParkFrame 1)).1.mode.parked = false
          ∧ initSys.mode.parked = true
        ↔ initSys.mode.parked = true
          ∧ (process_frame defaultConfig initSys (gearParkFrame 1)).1.mode.last_p_ts
              < (process_frame defaultConfig initSys (gearParkFrame 1)).1.mode.last_d_ts)
    ∧ ((process_frame defaultConfig initSys (gearParkFrame 1)).1.mode.last_p_ts
          = (process_frame defaultConfig initSys (gearParkFrame 1)).1.mode.last_d_ts
        → (process_frame defaultConfig initSys (gearParkFrame 1)).1.mode.parked
            = initSys.mode.parked)
    ∧ (initSys.mode.parked = false ∧ initSys.mode.mode_enabled = true
        ∧ (process_frame defaultConfig initSys (gearParkFrame 1)).1.mode.parked = true
        → (process_frame defaultConfig initSys (gearParkFrame 1)).2
            = [Effect.setSafety SafetyMode.silent])
    ∧ (initSys.mode.parked = true ∧ initSys.mode.mode_enabled = true
        ∧ (process_frame defaultConfig initSys (gearParkFrame 1)).1.mode.parked = false
        → (process_frame defaultConfig initSys (gearParkFrame 1)).2
            = [Effect.setSafety SafetyMode.alloutput])) :=
  ⟨⟨by decide, by decide, by decide⟩,
   gear_park_detection defaultConfig initSys (gearParkFrame 1)
     (by decide) (by decide) (by decide)⟩

/- ====================  C3  ==================== -/

/-- C3: for every gesture frame, the gesture action (toggle mode_enabled for
play and pause, cycle mode_signal for left tilt) fires if and only if the
elapsed time between the processing time and the stored timestamp of the
previous same gesture frame lies strictly inside the configured double tap
window; outside the window nothing happens beyond the timestamp update (and
the step_count reset common to every gesture frame): no frame is sent and no
safety change is emitted. -/
theorem double_tap_window_iff (cfg : Config) (sys : Sys) (fP fL : Frame)
    (hPb : fP.ev_bus = BUS_MAIN) (hPi : fP.ev_id = CAN_ID_STEERING_WHEEL)
    (hPl : 2 ≤ fP.ev_data.length) (hPp : fP.ev_data.take 2 = MSG_PLAY_PAUSE_PFX)
    (hLb : fL.ev_bus = BUS_MAIN) (hLi : fL.ev_id = CAN_ID_STEERING_WHEEL)
    (hLl : 2 ≤ fL.ev_data.length) (hLp : fL.ev_data.take 2 = MSG_LEFT_TILT_PFX) :
    ((process_frame cfg sys fP).1.mode.mode_enabled ≠ sys.mode.mode_enabled
      ↔ (cfg.double_tap_min < max sys.clock fP.arrival - sys.mode.last_lt
          ∧ max sys.clock fP.arrival - sys.mode.last_lt < cfg.double_tap_max))
    ∧ (¬ (cfg.double_tap_min < max sys.clock fP.arrival - sys.mode.last_lt
          ∧ max sys.clock fP.arrival - sys.mode.last_lt < cfg.double_tap_max) →
        (process_frame cfg sys fP).1
          = { clock := max sys.clock fP.arrival, mode :=
              { sys.mode with step_count := 0, last_lt := max sys.clock fP.arrival } }
        ∧ (process_frame cfg sys fP).2 = [])
    ∧ ((process_frame cfg sys fL).1.mode.mode_signal ≠ sys.mode.mode_signal
      ↔ (cfg.double_tap_min < max sys.clock fL.arrival - sys.mode.last_rt
          ∧ max sys.clock fL.arrival - sys.mode.last_rt < cfg.double_tap_max))
    ∧ (¬ (cfg.double_tap_min < max sys.clock fL.arrival - sys.mode.last_rt
          ∧ max sys.clock fL.arrival - sys.mode.last_rt < cfg.double_tap_max) →
        (process_frame cfg sys fL).1
          = { clock := max sys.clock fL.arrival, mode :=
              { sys.mode with step_count := 0, last_rt := max sys.clock fL.arrival } }
        ∧ (process_frame cfg sys fL).2 = []) := by
  have hrP : process_frame cfg sys fP
      = handle_play_pause cfg { sys with clock := max sys.clock fP.arrival } := by
    simp [process_frame, hPb, process_message, hPi, handle_steering_wheel, hPl, hPp,
      CAN_ID_STEERING_WHEEL, CAN_ID_TESLA_CLOCK]
  have hrL : process_frame cfg sys fL
      = handle_left_tilt cfg { sys with clock := max sys.clock fL.arrival } := by
    simp [process_frame, hLb, process_message, hLi, handle_steering_wheel, hLl, hLp,
      CAN_ID_STEERING_WHEEL, CAN_ID_TESLA_CLOCK, MSG_PLAY_PAUSE_PFX, MSG_LEFT_TILT_PFX]
  rw [hrP, hrL]
  set MP := max sys.clock fP.arrival with hMP
  set ML := max sys.clock fL.arrival with hML
  refine ⟨?_, ?_, ?_, ?_⟩
  · by_cases hw : cfg.double_tap_min < MP - sys.mode.last_lt
        ∧ MP - sys.mode.last_lt < cfg.double_tap_max
    · cases hE : sys.mode.mode_enabled <;>
        simp [handle_play_pause, toggle_mode, hw, hE]
    · simp [handle_play_pause, hw]
  · intro hw
    simp [handle_play_pause, hw]
  · by_cases hw : cfg.double_tap_min < ML - sys.mode.last_rt
        ∧ ML - sys.mode.last_rt < cfg.double_tap_max
    · have hsig : ((sys.mode.mode_signal + 1) % 3) ≠ sys.mode.mode_signal := by omega
      simp [handle_left_tilt, hw, hsig]
    · simp [handle_left_tilt, hw]
  · intro hw
    simp [handle_left_tilt, hw]

theorem double_tap_window_iff_w :
    ((ppFrame 1).ev_bus = BUS_MAIN ∧ (ppFrame 1).ev_id = CAN_ID_STEERING_WHEEL
      ∧ 2 ≤ (ppFrame 1).ev_data.length
      ∧ (ppFrame 1).ev_data.take 2 = MSG_PLAY_PAUSE_PFX
      ∧ (ltFrame 1).ev_bus = BUS_MAIN ∧ (ltFrame 1).ev_id = CAN_ID_STEERING_WHEEL
      ∧ 2 ≤ (ltFrame 1).ev_data.length
      ∧ (ltFrame 1).ev_data.take 2 = MSG_LEFT_TILT_PFX)
    ∧ (((process_frame defaultConfig initSys (ppFrame 1)).1.mode.mode_enabled
          ≠ initSys.mode.mode_enabled
        ↔ (defaultConfig.double_tap_min
              < max initSys.clock (ppFrame 1).arrival - initSys.mode.last_lt
            ∧ max initSys.clock (ppFrame 1).arrival - initSys.mode.last_lt
              < defaultConfig.double_tap_max))
    ∧ (¬ (defaultConfig.double_tap_min
            < max initSys.clock (ppFrame 1).arrival - initSys.mode.last_lt
          ∧ max initSys.clock (ppFrame 1).arrival - initSys.mode.last_lt
            < defaultConfig.double_tap_max) →
        (process_frame defaultConfig initSys (ppFrame 1)).1
          = { clock := max initSys.clock (ppFrame 1).arrival, mode :=
              { initSys.mode with
                step_count := 0, last_lt := max initSys.clock (ppFrame 1).arrival } }
        ∧ (process_frame defaultConfig initSys (ppFrame 1)).2 = [])
    ∧ ((process_frame defaultConfig initSys (ltFrame 1)).1.mode.mode_signal
          ≠ initSys.mode.mode_signal
        ↔ (defaultConfig.double_tap_min
              < max initSys.clock (ltFrame 1).arrival - initSys.mode.last_rt
            ∧ max initSys.clock (ltFrame 1).arrival - initSys.mode.last_rt
              < defaultConfig.double_tap_max))
    ∧ (¬ (defaultConfig.double_tap_min
            < max initSys.clock (ltFrame 1).arrival - initSys.mode.last_rt
          ∧ max initSys.clock (ltFrame 1).arrival - initSys.mode.last_rt
            < defaultConfig.double_tap_max) →
        (process_frame defaultConfig initSys (ltFrame 1)).1
          = { clock := max initSys.clock (ltFrame 1).arrival, mode :=
              { initSys.mode with
                step_count := 0, last_rt := max initSys.clock (ltFrame 1).arrival } }
        ∧ (process_frame defaultConfig initSys (ltFrame 1)).2 = [])) :=
  ⟨⟨by decide, by decide, by decide, by decide, by decide, by decide, by decide, by decide⟩,
   double_tap_window_iff defaultConfig initSys (ppFrame 1) (ltFrame 1)
     (by decide) (by decide) (by decide) (by decide)
     (by decide) (by decide) (by decide) (by decide)⟩

/- ====================  C5 helper lemmas  ==================== -/

theorem process_frame_clock_red (cfg : Config) (sys : Sys) (f : Frame)
    (hb : f.ev_bus = BUS_MAIN) (hi : f.ev_id = CAN_ID_TESLA_CLOCK) :
    process_frame cfg sys f
      = handle_clock_tick cfg f.jitter { sys with clock := max sys.clock f.arrival } := by
  simp [process_frame, hb, process_message, hi]

theorem tickleEffects_ne_nil (cfg : Config) (j : ℚ) (sig : Nat) :
    tickleEffects cfg j sig ≠ [] := by
  unfold tickleEffects
  split_ifs <;> simp

theorem tick_enabled_facts (cfg : Config) (sys : Sys) (f : Frame)
    (hb : f.ev_bus = BUS_MAIN) (hi : f.ev_id = CAN_ID_TESLA_CLOCK)
    (hboot : sys.mode.boot_init = true) (hen : sys.mode.mode_enabled = true) :
    (process_frame cfg sys f).1.mode.step_count
        = (if cfg.tickle_interval ≤ sys.mode.step_count + 1 then 0
           else sys.mode.step_count + 1)
    ∧ (process_frame cfg sys f).2
        = (if cfg.tickle_interval ≤ sys.mode.step_count + 1
           then tickleEffects cfg f.jitter sys.mode.mode_signal else [])
    ∧ (process_frame cfg sys f).1.mode.mode_enabled = true
    ∧ (process_frame cfg sys f).1.mode.boot_init = true
    ∧ (process_frame cfg sys f).1.mode.mode_signal = sys.mode.mode_signal
    ∧ (process_frame cfg sys f).1.mode.parked = sys.mode.parked := by
  rw [process_frame_clock_red cfg sys f hb hi]
  by_cases hs : cfg.tickle_interval ≤ sys.mode.step_count + 1 <;>
    simp [handle_clock_tick, hboot, hen, hs, send_tickle_signal]

theorem tick_disabled_eq (cfg : Config) (sys : Sys) (f : Frame)
    (hb : f.ev_bus = BUS_MAIN) (hi : f.ev_id = CAN_ID_TESLA_CLOCK)
    (hboot : sys.mode.boot_init = true) (hen : sys.mode.mode_enabled = false) :
    process_frame cfg sys f = ({ sys with clock := max sys.clock f.arrival }, []) := by
  rw [process_frame_clock_red cfg sys f hb hi]
  simp [handle_clock_tick, hboot, hen]

theorem countFires_disabled (cfg : Config) (f : Frame)
    (hb : f.ev_bus = BUS_MAIN) (hi : f.ev_id = CAN_ID_TESLA_CLOCK) :
    ∀ (n : Nat) (sys : Sys), sys.mode.boot_init = true →
      sys.mode.mode_enabled = false →
      countFires cfg sys (List.replicate n f) = 0 := by
  intro n
  induction n with
  | zero => intro sys _ _; simp [countFires]
  | succ k ih =>
    intro sys hboot hen
    have he := tick_disabled_eq cfg sys f hb hi hboot hen
    simp only [List.replicate_succ, countFires, he]
    simp [ih { sys with clock := max sys.clock f.arrival } hboot hen]

theorem countFires_enabled (cfg : Config) (f : Frame)
    (hb : f.ev_bus = BUS_MAIN) (hi : f.ev_id = CAN_ID_TESLA_CLOCK) :
    ∀ (n : Nat) (sys : Sys), sys.mode.boot_init = true →
      sys.mode.mode_enabled = true →
      sys.mode.step_count < cfg.tickle_interval →
      countFires cfg sys (List.replicate n f)
        = (sys.mode.step_count + n) / cfg.tickle_interval := by
  intro n
  induction n with
  | zero =>
    intro sys _ _ hc
    simp [countFires, Nat.div_eq_of_lt hc]
  | succ k ih =>
    intro sys hboot hen hc
    obtain ⟨h1, h2, h3, h4, _, _⟩ := tick_enabled_facts cfg sys f hb hi hboot hen
    by_cases hs : cfg.tickle_interval ≤ sys.mode.step_count + 1
    · have hIc : sys.mode.step_count + 1 = cfg.tickle_interval := by omega
      have hI0 : 0 < cfg.tickle_interval := by omega
      have hzero : (process_frame cfg sys f).1.mode.step_count = 0 := by
        rw [h1, if_pos hs]
      have hcount := ih (process_frame cfg sys f).1 h4 h3 (by rw [hzero]; exact hI0)
      rw [hzero] at hcount
      simp only [List.replicate_succ, countFires, hcount]
      rw [h2, if_pos hs]
      have hne := tickleEffects_ne_nil cfg f.jitter sys.mode.mode_signal
      have hemp : (tickleEffects cfg f.jitter sys.mode.mode_signal).isEmpty = false := by
        simpa [List.isEmpty_iff] using hne
      rw [hemp]
      simp only [Bool.false_eq_true, if_false, Nat.zero_add]
      have : sys.mode.step_count + (k + 1) = cfg.tickle_interval + k := by omega
      rw [this, Nat.add_comm cfg.tickle_interval k, Nat.add_div_right k hI0]
      omega
    · have hck : sys.mode.step_count + 1 < cfg.tickle_interval := by omega
      have hcount : countFires cfg (process_frame cfg sys f).1 (List.replicate k f)
          = (sys.mode.step_count + 1 + k) / cfg.tickle_interval := by
        have := ih (process_frame cfg sys f).1 h4 h3
        rw [h1, if_neg hs] at this
        exact this hck
      simp only [List.replicate_succ, countFires, hcount]
      rw [h2, if_neg hs]
      simp only [List.isEmpty_nil, if_true]
      have : sys.mode.step_count + (k + 1) = sys.mode.step_count + 1 + k := by omega
      rw [this]
      omega

theorem gesture_resets_counter (cfg : Config) (sys : Sys) (f : Frame)
    (hb : f.ev_bus = BUS_MAIN) (hi : f.ev_id = CAN_ID_STEERING_WHEEL)
    (hl : 2 ≤ f.ev_data.length)
    (hp : f.ev_data.take 2 = MSG_PLAY_PAUSE_PFX ∨ f.ev_data.take 2 = MSG_LEFT_TILT_PFX) :
    (process_frame cfg sys f).1.mode.step_count = 0 := by
  rcases hp with hp | hp
  · have hr : process_frame cfg sys f
        = handle_play_pause cfg { sys with clock := max sys.clock f.arrival } := by
      simp [process_frame, hb, process_message, hi, handle_steering_wheel, hl, hp,
        CAN_ID_STEERING_WHEEL, CAN_ID_TESLA_CLOCK]
    rw [hr]
    simp only [handle_play_pause]
    split_ifs with hw
    · by_cases hE : sys.mode.mode_enabled = true <;> simp [toggle_mode, hE]
    · simp
  · have hr : process_frame cfg sys f
        = handle_left_tilt cfg { sys with clock := max sys.clock f.arrival } := by
      simp [process_frame, hb, process_message, hi, handle_steering_wheel, hl, hp,
        CAN_ID_STEERING_WHEEL, CAN_ID_TESLA_CLOCK, MSG_PLAY_PAUSE_PFX, MSG_LEFT_TILT_PFX]
    rw [hr]
    simp only [handle_left_tilt]
    split_ifs with hw <;> simp

/- ====================  C5  ==================== -/

/-- C5: while enabled, each clock tick increments step_count and the tickle
(selected by mode_signal) fires exactly when the counter reaches
tickle_interval, resetting it to 0, so over n consecutive clock ticks
starting from counter c the tickle fires exactly (c + n) / tickle_interval
times; while disabled a clock tick changes nothing and no tickle ever
fires; and every gesture frame resets step_count to 0. -/
theorem tickle_cadence (cfg : Config) (sys sysD : Sys) (fC fPP fLT : Frame) (n : Nat)
    (hCb : fC.ev_bus = BUS_MAIN) (hCi : fC.ev_id = CAN_ID_TESLA_CLOCK)
    (hboot : sys.mode.boot_init = true) (hen : sys.mode.mode_enabled = true)
    (hc : sys.mode.step_count < cfg.tickle_interval)
    (hDboot : sysD.mode.boot_init = true) (hDen : sysD.mode.mode_enabled = false)
    (hPb : fPP.ev_bus = BUS_MAIN) (hPi : fPP.ev_id = CAN_ID_STEERING_WHEEL)
    (hPl : 2 ≤ fPP.ev_data.length) (hPp : fPP.ev_data.take 2 = MSG_PLAY_PAUSE_PFX)
    (hLb : fLT.ev_bus = BUS_MAIN) (hLi : fLT.ev_id = CAN_ID_STEERING_WHEEL)
    (hLl : 2 ≤ fLT.ev_data.length) (hLp : fLT.ev_data.take 2 = MSG_LEFT_TILT_PFX) :
    (process_frame cfg sys fC).1.mode.step_count
        = (if sys.mode.step_count + 1 = cfg.tickle_interval then 0
           else sys.mode.step_count + 1)
    ∧ ((process_frame cfg sys fC).2 ≠ []
        ↔ sys.mode.step_count + 1 = cfg.tickle_interval)
    ∧ (sys.mode.step_count + 1 = cfg.tickle_interval →
        (process_frame cfg sys fC).2 = tickleEffects cfg fC.jitter sys.mode.mode_signal)
    ∧ process_frame cfg sysD fC = ({ sysD with clock := max sysD.clock fC.arrival }, [])
    ∧ countFires cfg sysD (List.replicate n fC) = 0
    ∧ countFires cfg sys (List.replicate n fC)
        = (sys.mode.step_count + n) / cfg.tickle_interval
    ∧ (process_frame cfg sys fPP).1.mode.step_count = 0
    ∧ (process_frame cfg sys fLT).1.mode.step_count = 0 := by
  obtain ⟨h1, h2, _, _, _, _⟩ := tick_enabled_facts cfg sys fC hCb hCi hboot hen
  refine ⟨?_, ?_, ?_, tick_disabled_eq cfg sysD fC hCb hCi hDboot hDen,
    countFires_disabled cfg fC hCb hCi n sysD hDboot hDen,
    countFires_enabled cfg fC hCb hCi n sys hboot hen hc,
    gesture_resets_counter cfg sys fPP hPb hPi hPl (Or.inl hPp),
    gesture_resets_counter cfg sys fLT hLb hLi hLl (Or.inr hLp)⟩
  · rw [h1]
    by_cases hs : cfg.tickle_interval ≤ sys.mode.step_count + 1
    · rw [if_pos hs, if_pos (by omega)]
    · rw [if_neg hs, if_neg (by omega)]
  · rw [h2]
    by_cases hs : cfg.tickle_interval ≤ sys.mode.step_count + 1
    · simp [hs, tickleEffects_ne_nil]
      omega
    · simp [hs]
      omega
  · intro hIc
    rw [h2, if_pos (by omega)]

theorem tickle_cadence_w :
    ((clockFrame 1).ev_bus = BUS_MAIN ∧ (clockFrame 1).ev_id = CAN_ID_TESLA_CLOCK
      ∧ bootSys.mode.boot_init = true ∧ bootSys.mode.mode_enabled = true
      ∧ bootSys.mode.step_count < defaultConfig.tickle_interval
      ∧ bootSysDisabled.mode.boot_init = true
      ∧ bootSysDisabled.mode.mode_enabled = false
      ∧ (ppFrame 1).ev_bus = BUS_MAIN ∧ (ppFrame 1).ev_id = CAN_ID_STEERING_WHEEL
      ∧ 2 ≤ (ppFrame 1).ev_data.length
      ∧ (ppFrame 1).ev_data.take 2 = MSG_PLAY_PAUSE_PFX
      ∧ (ltFrame 1).ev_bus = BUS_MAIN ∧ (ltFrame 1).ev_id = CAN_ID_STEERING_WHEEL
      ∧ 2 ≤ (ltFrame 1).ev_data.length
      ∧ (ltFrame 1).ev_data.take 2 = MSG_LEFT_TILT_PFX)
    ∧ ((process_frame defaultConfig bootSys (clockFrame 1)).1.mode.step_count
        = (if bootSys.mode.step_count + 1 = defaultConfig.tickle_interval then 0
           else bootSys.mode.step_count + 1)
    ∧ ((process_frame defaultConfig bootSys (clockFrame 1)).2 ≠ []
        ↔ bootSys.mode.step_count + 1 = defaultConfig.tickle_interval)
    ∧ (bootSys.mode.step_count + 1 = defaultConfig.tickle_interval →
        (process_frame defaultConfig bootSys (clockFrame 1)).2
          = tickleEffects defaultConfig (clockFrame 1).jitter bootSys.mode.mode_signal)
    ∧ process_frame defaultConfig bootSysDisabled (clockFrame 1)
        = ({ bootSysDisabled with
             clock := max bootSysDisabled.clock (clockFrame 1).arrival }, [])
    ∧ countFires defaultConfig bootSysDisabled (List.replicate 12 (clockFrame 1)) = 0
    ∧ countFires defaultConfig bootSys (List.replicate 12 (clockFrame 1))
        = (bootSys.mode.step_count + 12) / defaultConfig.tickle_interval
    ∧ (process_frame defaultConfig bootSys (ppFrame 1)).1.mode.step_count = 0
    ∧ (process_frame defaultConfig bootSys (ltFrame 1)).1.mode.step_count = 0) :=
  ⟨⟨by decide, by decide, by decide, by decide, by decide, by decide, by decide, by decide,
    by decide, by decide, by decide, by decide, by decide, by decide, by decide⟩,
   tickle_cadence defaultConfig bootSys bootSysDisabled (clockFrame 1) (ppFrame 1)
     (ltFrame 1) 12 (by decide) (by decide) (by decide) (by decide) (by decide)
     (by decide) (by decide) (by decide) (by decide) (by decide) (by decide)
     (by decide) (by decide) (by decide) (by decide)⟩

/- ====================  C6 helper lemmas  ==================== -/

theorem process_frame_steering_red (cfg : Config) (sys : Sys) (f : Frame)
    (hb : f.ev_bus = BUS_MAIN) (hi : f.ev_id = CAN_ID_STEERING_WHEEL) :
    process_frame cfg sys f
      = handle_steering_wheel cfg { sys with clock := max sys.clock f.arrival }
          f.ev_data := by
  simp [process_frame, hb, process_message, hi, CAN_ID_STEERING_WHEEL,
    CAN_ID_TESLA_CLOCK]

theorem process_frame_gear_red (cfg : Config) (sys : Sys) (f : Frame)
    (hb : f.ev_bus = BUS_MAIN) (hi : f.ev_id = CAN_ID_GEAR) :
    process_frame cfg sys f
      = handle_gear cfg { sys with clock := max sys.clock f.arrival } f.ev_data := by
  simp [process_frame, hb, process_message, hi, CAN_ID_GEAR, CAN_ID_TESLA_CLOCK,
    CAN_ID_STEERING_WHEEL]

theorem boot_init_after (cfg : Config) (sys : Sys) (f : Frame) :
    (process_frame cfg sys f).1.mode.boot_init
      = (sys.mode.boot_init || isClockFrame f) := by
  by_cases hb : f.ev_bus = BUS_MAIN
  · by_cases h1 : f.ev_id = CAN_ID_TESLA_CLOCK
    · have hI : isClockFrame f = true := by
        simp [isClockFrame, hb, h1]
      rw [process_frame_clock_red cfg sys f hb h1, hI]
      cases hbo : sys.mode.boot_init <;>
        simp [handle_clock_tick, hbo, do_startup_sequence, send_tickle_signal] <;>
        split_ifs <;> simp [hbo]
    · have hI : isClockFrame f = false := by
        simp [isClockFrame, hb, h1]
      rw [hI]
      by_cases h2 : f.ev_id = CAN_ID_STEERING_WHEEL
      · rw [process_frame_steering_red cfg sys f hb h2]
        simp only [handle_steering_wheel, handle_play_pause, handle_left_tilt,
          toggle_mode]
        split_ifs <;> simp
      · by_cases h3 : f.ev_id = CAN_ID_GEAR
        · rw [process_frame_gear_red cfg sys f hb h3]
          simp only [handle_gear]
          split_ifs <;> simp
        · simp [process_frame, hb, process_message, h1, h2, h3]
  · have hI : isClockFrame f = false := by
      simp [isClockFrame, hb]
    simp [process_frame, hb, hI]

theorem countStartups_boot_true (cfg : Config) :
    ∀ (tr : List Frame) (sys : Sys), sys.mode.boot_init = true →
      countStartups cfg sys tr = 0 := by
  intro tr
  induction tr with
  | nil => intro sys _; simp [countStartups]
  | cons f r ih =>
    intro sys hb
    have hnext : (process_frame cfg sys f).1.mode.boot_init = true := by
      rw [boot_init_after]; simp [hb]
    simp [countStartups, hb, ih _ hnext]

theorem countStartups_count (cfg : Config) :
    ∀ (tr : List Frame) (sys : Sys), sys.mode.boot_init = false →
      countStartups cfg sys tr = (if tr.any isClockFrame then 1 else 0) := by
  intro tr
  induction tr with
  | nil => intro sys _; simp [countStartups]
  | cons f r ih =>
    intro sys hb
    by_cases hf : isClockFrame f = true
    · have hnext : (process_frame cfg sys f).1.mode.boot_init = true := by
        rw [boot_init_after]; simp [hf]
      simp [countStartups, hb, hf, List.any_cons,
        countStartups_boot_true cfg r _ hnext]
    · have hnext : (process_frame cfg sys f).1.mode.boot_init = false := by
        rw [boot_init_after]
        simp only [Bool.or_eq_false_iff]
        exact ⟨hb, by simpa using hf⟩
      simp [countStartups, hb, hf, List.any_cons, ih _ hnext]

theorem first_tick_startup (cfg : Config) (sys : Sys) (f : Frame)
    (hb : f.ev_bus = BUS_MAIN) (hi : f.ev_id = CAN_ID_TESLA_CLOCK)
    (hboot : sys.mode.boot_init = false) :
    (process_frame cfg sys f).1.mode.boot_init = true
    ∧ (process_frame cfg sys f).2
        = startupEffects cfg sys.mode.mode_enabled
            ++ (if sys.mode.mode_enabled = true then
                  (if cfg.tickle_interval ≤ sys.mode.step_count + 1
                   then tickleEffects cfg f.jitter sys.mode.mode_signal else [])
                else []) := by
  rw [process_frame_clock_red cfg sys f hb hi]
  by_cases hE : sys.mode.mode_enabled = true
  · by_cases hs : cfg.tickle_interval ≤ sys.mode.step_count + 1 <;>
      simp [handle_clock_tick, hboot, do_startup_sequence, hE, hs, send_tickle_signal]
  · simp [handle_clock_tick, hboot, do_startup_sequence, hE]

theorem applyEffects_startup (cfg : Config) (m : SafetyMode) (e : Bool) :
    applyEffects m (startupEffects cfg e)
      = (if e = true then SafetyMode.alloutput else SafetyMode.silent) := by
  cases e
  · show applyEffects m ([Effect.setSafety SafetyMode.alloutput]
        ++ startupPairs cfg (cfg.startup_signal_count / 2)
        ++ [Effect.setSafety SafetyMode.silent]) = SafetyMode.silent
    rw [applyEffects_append, applyEffects_append, applyEffects_startupPairs]
    rfl
  · show applyEffects m ([Effect.setSafety SafetyMode.alloutput]
        ++ startupPairs cfg (cfg.startup_signal_count / 2) ++ []) = SafetyMode.alloutput
    rw [applyEffects_append, applyEffects_append, applyEffects_startupPairs]
    rfl

/- ====================  C6  ==================== -/

/-- C6: the startup sequence runs exactly once per run invocation: over any
frame trace started with boot_init false it runs once when the trace holds a
main bus clock tick and zero times otherwise; the first clock tick sets
boot_init, emits the startup effect list (safety alloutput unconditionally,
the down and up volume pairs separated by the startup delay, silent again
when disabled) followed only by the normal tickle handling; the net safety
effect of the startup sequence is alloutput when enabled and silent when
disabled; and once boot_init is set no frame ever clears it. -/
theorem startup_once (cfg : Config) (sys0 sysB : Sys) (tr : List Frame) (fC : Frame)
    (h0 : sys0.mode.boot_init = false)
    (hBb : sysB.mode.boot_init = false)
    (hCb : fC.ev_bus = BUS_MAIN) (hCi : fC.ev_id = CAN_ID_TESLA_CLOCK) :
    countStartups cfg sys0 tr = (if tr.any isClockFrame then 1 else 0)
    ∧ (process_frame cfg sysB fC).1.mode.boot_init = true
    ∧ (process_frame cfg sysB fC).2
        = startupEffects cfg sysB.mode.mode_enabled
            ++ (if sysB.mode.mode_enabled = true then
                  (if cfg.tickle_interval ≤ sysB.mode.step_count + 1
                   then tickleEffects cfg fC.jitter sysB.mode.mode_signal else [])
                else [])
    ∧ (∀ m : SafetyMode, applyEffects m (startupEffects cfg sysB.mode.mode_enabled)
        = (if sysB.mode.mode_enabled = true then SafetyMode.alloutput
           else SafetyMode.silent))
    ∧ (∀ (s : Sys) (f : Frame), s.mode.boot_init = true →
        (process_frame cfg s f).1.mode.boot_init = true) := by
  obtain ⟨hA, hB⟩ := first_tick_startup cfg sysB fC hCb hCi hBb
  refine ⟨countStartups_count cfg tr sys0 h0, hA, hB,
    fun m => applyEffects_startup cfg m sysB.mode.mode_enabled,
    fun s f hs => ?_⟩
  rw [boot_init_after]
  simp [hs]

theorem startup_once_w :
    (initSys.mode.boot_init = false ∧ initSys.mode.boot_init = false
      ∧ (clockFrame 1).ev_bus = BUS_MAIN ∧ (clockFrame 1).ev_id = CAN_ID_TESLA_CLOCK)
    ∧ (countStartups defaultConfig initSys
          [clockFrame 1, clockFrame 2, ppFrame 3, clockFrame 4]
        = (if ([clockFrame 1, clockFrame 2, ppFrame 3, clockFrame 4]).any isClockFrame
           then 1 else 0)
    ∧ (process_frame defaultConfig initSys (clockFrame 1)).1.mode.boot_init = true
    ∧ (process_frame defaultConfig initSys (clockFrame 1)).2
        = startupEffects defaultConfig initSys.mode.mode_enabled
            ++ (if initSys.mode.mode_enabled = true then
                  (if defaultConfig.tickle_interval ≤ initSys.mode.step_count + 1
                   then tickleEffects defaultConfig (clockFrame 1).jitter
                          initSys.mode.mode_signal
                   else [])
                else [])
    ∧ (∀ m : SafetyMode,
        applyEffects m (startupEffects defaultConfig initSys.mode.mode_enabled)
          = (if initSys.mode.mode_enabled = true then SafetyMode.alloutput
             else SafetyMode.silent))
    ∧ (∀ (s : Sys) (f : Frame), s.mode.boot_init = true →
        (process_frame defaultConfig s f).1.mode.boot_init = true)) :=
  ⟨⟨by decide, by decide, by decide, by decide⟩,
   startup_once defaultConfig initSys initSys
     [clockFrame 1, clockFrame 2, ppFrame 3, clockFrame 4] (clockFrame 1)
     (by decide) (by decide) (by decide) (by decide)⟩

theorem pp_step (cfg : Config) (sys : Sys) (f : Frame)
    (hb : f.ev_bus = BUS_MAIN) (hi : f.ev_id = CAN_ID_STEERING_WHEEL)
    (hl : 2 ≤ f.ev_data.length) (hp : f.ev_data.take 2 = MSG_PLAY_PAUSE_PFX) :
    process_frame cfg sys f
      = (if cfg.double_tap_min < max sys.clock f.arrival - sys.mode.last_lt
            ∧ max sys.clock f.arrival - sys.mode.last_lt < cfg.double_tap_max
         then
           (if sys.mode.mode_enabled = true then
             ({ clock := max sys.clock f.arrival
                  + (cfg.volume_delay + 1/5) + (cfg.volume_delay + 1/5)
                mode := { sys.mode with
                  mode_enabled := false
                  step_count := 0
                  last_lt := max sys.clock f.arrival
                    + (cfg.volume_delay + 1/5) + (cfg.volume_delay + 1/5) } },
              [Effect.sendMsg CAN_ID_STEERING_WHEEL MSG_VOL_UP BUS_MAIN,
               Effect.sleep (cfg.volume_delay + 1/5),
               Effect.sendMsg CAN_ID_STEERING_WHEEL MSG_VOL_DOWN BUS_MAIN,
               Effect.sleep (cfg.volume_delay + 1/5),
               Effect.setSafety SafetyMode.silent])
           else
             ({ clock := max sys.clock f.arrival + (cfg.volume_delay + 1/5)
                mode := { sys.mode with
                  mode_enabled := true
                  step_count := 0
                  last_lt := max sys.clock f.arrival + (cfg.volume_delay + 1/5) } },
              [Effect.setSafety SafetyMode.alloutput,
               Effect.sendMsg CAN_ID_STEERING_WHEEL MSG_VOL_DOWN BUS_MAIN,
               Effect.sleep (cfg.volume_delay + 1/5),
               Effect.sendMsg CAN_ID_STEERING_WHEEL MSG_VOL_UP BUS_MAIN]))
         else
           ({ clock := max sys.clock f.arrival
              mode := { sys.mode with
                step_count := 0
                last_lt := max sys.clock f.arrival } }, [])) := by
  rw [process_frame_steering_red cfg sys f hb hi]
  simp only [handle_steering_wheel, hl, hp, if_true, ite_true, true_and,
    le_refl, and_self]
  simp only [handle_play_pause, toggle_mode]
  split_ifs <;> simp_all

theorem lt_step (cfg : Config) (sys : Sys) (f : Frame)
    (hb : f.ev_bus = BUS_MAIN) (hi : f.ev_id = CAN_ID_STEERING_WHEEL)
    (hl : 2 ≤ f.ev_data.length) (hp : f.ev_data.take 2 = MSG_LEFT_TILT_PFX) :
    process_frame cfg sys f
      = (if cfg.double_tap_min < max sys.clock f.arrival - sys.mode.last_rt
            ∧ max sys.clock f.arrival - sys.mode.last_rt < cfg.double_tap_max
         then
           ({ clock := max sys.clock f.arrival
                + (cfg.volume_delay + 1/5) + (cfg.volume_delay + 1/5)
              mode := { sys.mode with
                step_count := 0
                mode_signal := (sys.mode.mode_signal + 1) % 3
                last_rt := max sys.clock f.arrival
                  + (cfg.volume_delay + 1/5) + (cfg.volume_delay + 1/5) } },
            (if sys.mode.mode_enabled = true then []
             else [Effect.setSafety SafetyMode.alloutput])
              ++ confirmPair cfg
              ++ (if sys.mode.mode_enabled = true then []
                  else [Effect.setSafety SafetyMode.silent]))
         else
           ({ clock := max sys.clock f.arrival
              mode := { sys.mode with
                step_count := 0
                last_rt := max sys.clock f.arrival } }, [])) := by
  rw [process_frame_steering_red cfg sys f hb hi]
  have hnp : ¬ (f.ev_data.take 2 = MSG_PLAY_PAUSE_PFX) := by
    rw [hp]
    simp [MSG_PLAY_PAUSE_PFX, MSG_LEFT_TILT_PFX]
  simp only [handle_steering_wheel, hl, hp, hnp, if_true, ite_true, true_and,
    and_false, false_and, if_false, ite_false]
  simp only [handle_left_tilt]
  split_ifs <;> simp_all

/- ====================  C2  ==================== -/

/-- C2: for each gesture independently, three same gesture frames arriving at
gaps of 0.3 time-units from an idle state register exactly one double tap
event: exactly one toggle of mode_enabled for play and pause, and exactly one
cycle of mode_signal for left tilt, not two, because the handler finishes the
double tap (including its confirmation sleeps) before the third frame is
processed and stamps the completion time into the comparison timestamp. -/
theorem three_taps_one_event (t : ℚ) (ht : 3/4 ≤ t) :
    countToggles defaultConfig initSys
      [ppFrame t, ppFrame (t + 3/10), ppFrame (t + 3/5)] = 1
    ∧ countCycles defaultConfig initSys
      [ltFrame t, ltFrame (t + 3/10), ltFrame (t + 3/5)] = 1 := by
  have hm1 : max (0:ℚ) t = t := max_eq_right (by linarith)
  have hc1 : ¬ ((1:ℚ)/5 < t - 0 ∧ t - 0 < 3/4) := by
    push_neg
    intro h
    linarith
  have hm2 : max t (t + 3/10) = t + 3/10 := max_eq_right (by linarith)
  have hc2 : (1:ℚ)/5 < t + 3/10 - t ∧ t + 3/10 - t < 3/4 := by
    constructor <;> linarith
  have hm3 : max (t + 3/10 + (3/10 + 1/5) + (3/10 + 1/5)) (t + 3/5)
      = t + 3/10 + (3/10 + 1/5) + (3/10 + 1/5) := max_eq_left (by linarith)
  have hc3 : ¬ ((1:ℚ)/5 < t + 3/10 + (3/10 + 1/5) + (3/10 + 1/5)
        - (t + 3/10 + (3/10 + 1/5) + (3/10 + 1/5))
      ∧ t + 3/10 + (3/10 + 1/5) + (3/10 + 1/5)
        - (t + 3/10 + (3/10 + 1/5) + (3/10 + 1/5)) < 3/4) := by
    push_neg
    intro h
    linarith
  constructor
  · have e1 : process_frame defaultConfig initSys (ppFrame t)
        = (ppSingleState t, []) := by
      rw [pp_step defaultConfig initSys (ppFrame t) rfl rfl
        (by simp [ppFrame, MSG_PLAY_PAUSE_PFX]) rfl]
      dsimp only [ModeState.init, initSys, defaultConfig, ppFrame]
      rw [hm1, if_neg hc1]
      rfl
    have e2 : process_frame defaultConfig (ppSingleState t) (ppFrame (t + 3/10))
        = (ppToggledState t,
           [Effect.sendMsg CAN_ID_STEERING_WHEEL MSG_VOL_UP BUS_MAIN,
            Effect.sleep (3/10 + 1/5),
            Effect.sendMsg CAN_ID_STEERING_WHEEL MSG_VOL_DOWN BUS_MAIN,
            Effect.sleep (3/10 + 1/5),
            Effect.setSafety SafetyMode.silent]) := by
      rw [pp_step defaultConfig (ppSingleState t) (ppFrame (t + 3/10)) rfl rfl
        (by simp [ppFrame, MSG_PLAY_PAUSE_PFX]) rfl]
      dsimp only [ppSingleState, ModeState.init, initSys, defaultConfig, ppFrame]
      rw [hm2, if_pos hc2]
      rfl
    have e3 : process_frame defaultConfig (ppToggledState t) (ppFrame (t + 3/5))
        = (ppToggledState t, []) := by
      rw [pp_step defaultConfig (ppToggledState t) (ppFrame (t + 3/5)) rfl rfl
        (by simp [ppFrame, MSG_PLAY_PAUSE_PFX]) rfl]
      dsimp only [ppToggledState, ModeState.init, initSys, defaultConfig, ppFrame]
      rw [hm3, if_neg hc3]
    simp only [countToggles, e1, e2, e3]
    simp [ppSingleState, ppToggledState, ModeState.init, initSys]
  · have e1 : process_frame defaultConfig initSys (ltFrame t)
        = (ltSingleState t, []) := by
      rw [lt_step defaultConfig initSys (ltFrame t) rfl rfl
        (by simp [ltFrame, MSG_LEFT_TILT_PFX]) rfl]
      dsimp only [ModeState.init, initSys, defaultConfig, ltFrame]
      rw [hm1, if_neg hc1]
      rfl
    have e2 : process_frame defaultConfig (ltSingleState t) (ltFrame (t + 3/10))
        = (ltCycledState t, confirmPair defaultConfig) := by
      rw [lt_step defaultConfig (ltSingleState t) (ltFrame (t + 3/10)) rfl rfl
        (by simp [ltFrame, MSG_LEFT_TILT_PFX]) rfl]
      dsimp only [ltSingleState, ModeState.init, initSys, defaultConfig, ltFrame]
      rw [hm2, if_pos hc2]
      rfl
    have e3 : process_frame defaultConfig (ltCycledState t) (ltFrame (t + 3/5))
        = (ltCycledState t, []) := by
      rw [lt_step defaultConfig (ltCycledState t) (ltFrame (t + 3/5)) rfl rfl
        (by simp [ltFrame, MSG_LEFT_TILT_PFX]) rfl]
      dsimp only [ltCycledState, ModeState.init, initSys, defaultConfig, ltFrame]
      rw [hm3, if_neg hc3]
    simp only [countCycles, e1, e2, e3]
    simp [ltSingleState, ltCycledState, ModeState.init, initSys]


theorem three_taps_one_event_w :
    ((3:ℚ)/4 ≤ 1)
    ∧ (countToggles defaultConfig initSys
        [ppFrame 1, ppFrame (1 + 3/10), ppFrame (1 + 3/5)] = 1
      ∧ countCycles defaultConfig initSys
        [ltFrame 1, ltFrame (1 + 3/10), ltFrame (1 + 3/5)] = 1) :=
  ⟨by norm_num, three_taps_one_event 1 (by norm_num)⟩

/- ====================  C1  ==================== -/

theorem safetyInv_step (cfg : Config) (sys : Sys) (f : Frame) (m : SafetyMode)
    (h : SafetyInv sys.mode m) :
    SafetyInv (process_frame cfg sys f).1.mode
      (applyEffects m (process_frame cfg sys f).2) := by
  obtain ⟨h1, h2⟩ := h
  by_cases hb : f.ev_bus = BUS_MAIN
  case neg =>
    simp only [process_frame, hb, if_false, ite_false]
    exact ⟨h1, h2⟩
  by_cases hc : f.ev_id = CAN_ID_TESLA_CLOCK
  case pos =>
    cases hbo : sys.mode.boot_init
    · rw [process_frame_clock_red cfg sys f hb hc]
      cases hE : sys.mode.mode_enabled <;>
        by_cases hs : cfg.tickle_interval ≤ sys.mode.step_count + 1 <;>
        simp [handle_clock_tick, hbo, hE, hs, do_startup_sequence,
          send_tickle_signal, applyEffects_append, applyEffects_startup,
          applyEffects_tickle, applyEffects_nil, SafetyInv]
    · cases hE : sys.mode.mode_enabled
      · rw [tick_disabled_eq cfg sys f hb hc hbo hE]
        exact ⟨h1, h2⟩
      · obtain ⟨hsc, hef, hen, hbo2, hsig, hpk2⟩ :=
          tick_enabled_facts cfg sys f hb hc hbo hE
        have hm : applyEffects m (process_frame cfg sys f).2 = m := by
          rw [hef]
          split_ifs
          · exact applyEffects_tickle cfg m f.jitter sys.mode.mode_signal
          · rfl
        rw [hm]
        constructor
        · intro _
          exact hen
        · intro hpk
          rw [hpk2] at hpk
          rw [hen]
          simpa [hE] using h2 hpk
  by_cases hsw : f.ev_id = CAN_ID_STEERING_WHEEL
  case pos =>
    rw [process_frame_steering_red cfg sys f hb hsw]
    by_cases hpp : 2 ≤ f.ev_data.length ∧ f.ev_data.take 2 = MSG_PLAY_PAUSE_PFX
    · simp only [handle_steering_wheel, hpp, if_true, ite_true]
      simp only [handle_play_pause, toggle_mode]
      split_ifs with hw hE <;>
        simp_all [SafetyInv, applyEffects, applyEffect]
    · by_cases hlt : 2 ≤ f.ev_data.length ∧ f.ev_data.take 2 = MSG_LEFT_TILT_PFX
      · simp only [handle_steering_wheel, hpp, hlt, if_true, ite_true, if_false,
          ite_false]
        simp only [handle_left_tilt]
        split_ifs with hw <;>
          cases hE : sys.mode.mode_enabled <;>
          simp_all [SafetyInv, applyEffects_append, applyEffects_confirmPair,
            applyEffects, applyEffect, confirmPair, List.foldl_cons, List.foldl_nil]
      · simp only [handle_steering_wheel, hpp, hlt, if_false, ite_false,
          applyEffects]
        exact ⟨h1, h2⟩
  by_cases hg : f.ev_id = CAN_ID_GEAR
  case pos =>
    rw [process_frame_gear_red cfg sys f hb hg]
    by_cases hlen : f.ev_data.length < 3
    · simp only [handle_gear, hlen, if_true, ite_true, applyEffects]
      exact ⟨h1, h2⟩
    · simp only [handle_gear, hlen, if_false, ite_false]
      split_ifs with hf1 hf2 <;>
        cases hE : sys.mode.mode_enabled <;>
        simp_all [SafetyInv, applyEffects, applyEffect]
  case neg =>
    simp only [process_frame, hb, if_pos rfl, process_message, hc, hsw, hg,
      if_false, ite_false, applyEffects]
    exact ⟨h1, h2⟩

theorem safetyInv_frames (cfg : Config) :
    ∀ (tr : List Frame) (sys : Sys) (m : SafetyMode), SafetyInv sys.mode m →
      SafetyInv (process_frames cfg sys tr).1.mode
        (applyEffects m (process_frames cfg sys tr).2) := by
  intro tr
  induction tr with
  | nil =>
    intro sys m h
    simpa [process_frames, applyEffects_nil] using h
  | cons f r ih =>
    intro sys m h
    simp only [process_frames, applyEffects_append]
    exact ih (process_frame cfg sys f).1 (applyEffects m (process_frame cfg sys f).2)
      (safetyInv_step cfg sys f m h)

/-- C1 (amended): after every processed frame, starting from the initial
Advanced mode state (enabled, safety set to allow output by run), the safety
mode is allow output only when mode_enabled is true, and whenever parked is
false the safety mode matches mode_enabled exactly; while parked is true the
safety mode may still be allow output when enabled, because the startup
sequence and the enabling double tap set allow output without consulting
parked, so parked does not force silent. -/
theorem safety_mode_invariant (cfg : Config) (tr : List Frame) :
    SafetyInv (process_frames cfg initSys tr).1.mode
      (applyEffects SafetyMode.alloutput (process_frames cfg initSys tr).2) :=
  safetyInv_frames cfg tr initSys SafetyMode.alloutput
    ⟨fun _ => rfl, fun _ => ⟨fun _ => rfl, fun _ => rfl⟩⟩

/-- C1 counterexample: the claim as stated is false.  From the initial state,
a park gear frame at time 1 flips parked to true (safety goes silent), and a
first clock tick at time 2 runs the startup sequence, which sets safety to
allow output unconditionally and leaves it there since the mode is enabled;
the resulting state has parked = true with safety allow output, where the
claim demands silent. -/
theorem safety_mode_claim_cex :
    (process_frames defaultConfig initSys
        [gearParkFrame 1, clockFrame 2]).1.mode.parked = true
    ∧ applyEffects SafetyMode.alloutput
        (process_frames defaultConfig initSys [gearParkFrame 1, clockFrame 2]).2
      = SafetyMode.alloutput
    ∧ ¬ claimedSafetyInv
        (process_frames defaultConfig initSys [gearParkFrame 1, clockFrame 2]).1.mode
        (applyEffects SafetyMode.alloutput
          (process_frames defaultConfig initSys [gearParkFrame 1, clockFrame 2]).2) := by
  refine ⟨by decide, by decide, fun hcl => ?_⟩
  simp only [claimedSafetyInv] at hcl
  rw [show (process_frames defaultConfig initSys
      [gearParkFrame 1, clockFrame 2]).1.mode.parked = true from by decide] at hcl
  rw [show applyEffects SafetyMode.alloutput
      (process_frames defaultConfig initSys [gearParkFrame 1, clockFrame 2]).2
      = SafetyMode.alloutput from by decide] at hcl
  simp at hcl

/- ====================  C7  ==================== -/

/-- C7 (amended): in the delivery loop, a failing stepFn call increments the
exception counter; when the counter then stays at or below the threshold 5
the loop sleeps the fixed 1.2 time-unit backoff and retries; when
retryOnError holds and the counter exceeds 5 a full reconnect
(disconnect, 1.2 backoff, connect) is attempted, the loop exits when the
reconnect fails and continues with the counter cleared by connect when it
succeeds; a successful stepFn call that returns true resets the counter to
zero, while a successful call that returns false exits the loop with the
counter unchanged. -/
theorem delivery_loop_error_budget (cfg : Config) (retry : Bool)
    (st stH : LoopState) (itE itO itG : LoopIter)
    (hE1 : itE.shutdown = false) (hE2 : itE.step = StepResult.err)
    (hO1 : itO.shutdown = false) (hO2 : itO.step = StepResult.ok true)
    (hG1 : itG.shutdown = false) (hG2 : itG.step = StepResult.ok false)
    (hLo : st.exception_count + 1 ≤ MAX_EXCEPTION_COUNT)
    (hHi : MAX_EXCEPTION_COUNT < stH.exception_count + 1) :
    loopIter cfg retry st itE
      = ({ exception_count := st.exception_count + 1 },
         [Effect.sleep RECONNECT_DELAY], none)
    ∧ (itE.reconnectOk = true →
        loopIter cfg true stH itE
          = ({ exception_count := 0 }, reconnectEffects cfg true, none))
    ∧ (itE.reconnectOk = false →
        loopIter cfg true stH itE
          = ({ exception_count := stH.exception_count + 1 },
             reconnectEffects cfg false, some ExitReason.reconnectFailed))
    ∧ loopIter cfg retry st itO = ({ exception_count := 0 }, [], none)
    ∧ loopIter cfg retry st itG = (st, [], some ExitReason.graceful) := by
  refine ⟨?_, fun hr => ?_, fun hr => ?_, ?_, ?_⟩
  · simp only [loopIter, hE1, hE2]
    rw [if_neg (by omega :
      ¬ (retry = true ∧ MAX_EXCEPTION_COUNT < st.exception_count + 1))]
    simp
  · simp [loopIter, hE1, hE2, hr, hHi]
  · simp [loopIter, hE1, hE2, hr, hHi]
  · simp [loopIter, hO1, hO2]
  · simp [loopIter, hG1, hG2]

/-- C7 counterexample: the claim that every successful stepFn call resets the
exception counter to zero is false: a successful call that returns false
breaks out of the loop before the reset statement, leaving the counter at its
previous value (here 3). -/
theorem step_false_no_reset_cex :
    loopIter defaultConfig true { exception_count := 3 }
        { shutdown := false, step := StepResult.ok false, reconnectOk := true }
      = ({ exception_count := 3 }, [], some ExitReason.graceful)
    ∧ (3 : Nat) ≠ 0 :=
  ⟨by decide, by decide⟩

/- ====================  C8  ==================== -/

/-- C8: whenever run_with_reconnect terminates after a successful initial
connect, whatever the oracle of step outcomes, shutdown flags and reconnect
results was and whatever the exit reason is (graceful stop, error abandon
after a failed reconnect, or external shutdown), the effect trace ends with
the cleanup of the finally block, [setSafety silent, disconnect]: the
connection is disconnected and the folded interface safety mode over the
whole trace is silent. -/
theorem cleanup_on_every_exit (cfg : Config) (retry : Bool) (iters : List LoopIter)
    (out : List Effect × ExitReason)
    (hrun : run_with_reconnect cfg retry true iters = some out) :
    List.IsSuffix disconnectEffects out.1
    ∧ (∀ m : SafetyMode, applyEffects m out.1 = SafetyMode.silent) := by
  have hout : out.1 = connectEffects cfg true
      ++ (loopRun cfg retry { exception_count := 0 } iters).2.1 ++ disconnectEffects := by
    rcases hr : (loopRun cfg retry { exception_count := 0 } iters).2.2
      with _ | _ | _ | _ | _ <;>
      simp [run_with_reconnect, hr] at hrun <;>
      simp [← hrun]
  constructor
  · rw [hout]
    exact ⟨connectEffects cfg true
      ++ (loopRun cfg retry { exception_count := 0 } iters).2.1, by simp⟩
  · intro m
    rw [hout]
    simp [applyEffects_append, disconnectEffects, applyEffects_cons,
      applyEffects_nil, applyEffect]

theorem delivery_loop_error_budget_w :
    (({ shutdown := false, step := StepResult.err, reconnectOk := true } : LoopIter).shutdown
        = false
      ∧ ({ shutdown := false, step := StepResult.err, reconnectOk := true } : LoopIter).step
        = StepResult.err
      ∧ ({ shutdown := false, step := StepResult.ok true, reconnectOk := true } : LoopIter).shutdown
        = false
      ∧ ({ shutdown := false, step := StepResult.ok true, reconnectOk := true } : LoopIter).step
        = StepResult.ok true
      ∧ ({ shutdown := false, step := StepResult.ok false, reconnectOk := true } : LoopIter).shutdown
        = false
      ∧ ({ shutdown := false, step := StepResult.ok false, reconnectOk := true } : LoopIter).step
        = StepResult.ok false
      ∧ ({ exception_count := 0 } : LoopState).exception_count + 1 ≤ MAX_EXCEPTION_COUNT
      ∧ MAX_EXCEPTION_COUNT < ({ exception_count := 5 } : LoopState).exception_count + 1)
    ∧ (loopIter defaultConfig true { exception_count := 0 }
          { shutdown := false, step := StepResult.err, reconnectOk := true }
        = ({ exception_count := 1 }, [Effect.sleep RECONNECT_DELAY], none)
    ∧ (({ shutdown := false, step := StepResult.err, reconnectOk := true } : LoopIter).reconnectOk
          = true →
        loopIter defaultConfig true { exception_count := 5 }
            { shutdown := false, step := StepResult.err, reconnectOk := true }
          = ({ exception_count := 0 }, reconnectEffects defaultConfig true, none))
    ∧ (({ shutdown := false, step := StepResult.err, reconnectOk := true } : LoopIter).reconnectOk
          = false →
        loopIter defaultConfig true { exception_count := 5 }
            { shutdown := false, step := StepResult.err, reconnectOk := true }
          = ({ exception_count := 6 },
             reconnectEffects defaultConfig false, some ExitReason.reconnectFailed))
    ∧ loopIter defaultConfig true { exception_count := 0 }
          { shutdown := false, step := StepResult.ok true, reconnectOk := true }
        = ({ exception_count := 0 }, [], none)
    ∧ loopIter defaultConfig true { exception_count := 0 }
          { shutdown := false, step := StepResult.ok false, reconnectOk := true }
        = ({ exception_count := 0 }, [], some ExitReason.graceful)) :=
  ⟨⟨by decide, by decide, by decide, by decide, by decide, by decide, by decide, by decide⟩,
   delivery_loop_error_budget defaultConfig true
     { exception_count := 0 } { exception_count := 5 }
     { shutdown := false, step := StepResult.err, reconnectOk := true }
     { shutdown := false, step := StepResult.ok true, reconnectOk := true }
     { shutdown := false, step := StepResult.ok false, reconnectOk := true }
     (by decide) (by decide) (by decide) (by decide) (by decide) (by decide)
     (by decide) (by decide)⟩

theorem cleanup_on_every_exit_w :
    (run_with_reconnect defaultConfig true true
        [{ shutdown := false, step := StepResult.ok false, reconnectOk := true }]
      = some ([Effect.connectAttempt true, Effect.setSpeed 0 500, Effect.setSpeed 1 500,
               Effect.setSafety SafetyMode.alloutput, Effect.setSafety SafetyMode.silent,
               Effect.disconnect], ExitReason.graceful))
    ∧ (List.IsSuffix disconnectEffects
        (([Effect.connectAttempt true, Effect.setSpeed 0 500, Effect.setSpeed 1 500,
           Effect.setSafety SafetyMode.alloutput, Effect.setSafety SafetyMode.silent,
           Effect.disconnect], ExitReason.graceful) :
            List Effect × ExitReason).1
      ∧ (∀ m : SafetyMode, applyEffects m
          (([Effect.connectAttempt true, Effect.setSpeed 0 500, Effect.setSpeed 1 500,
             Effect.setSafety SafetyMode.alloutput, Effect.setSafety SafetyMode.silent,
             Effect.disconnect], ExitReason.graceful) :
              List Effect × ExitReason).1 = SafetyMode.silent)) :=
  ⟨by decide,
   cleanup_on_every_exit defaultConfig true
     [{ shutdown := false, step := StepResult.ok false, reconnectOk := true }]
     ([Effect.connectAttempt true, Effect.setSpeed 0 500, Effect.setSpeed 1 500,
       Effect.setSafety SafetyMode.alloutput, Effect.setSafety SafetyMode.silent,
       Effect.disconnect], ExitReason.graceful)
     (by decide)⟩
